import Mathlib

/-!
Verification of the shader expression and code-generation subsystem of the
ggdraft repository (src/gfx/shader_gen and src/gfx/input_layout.rs).

The Rust code is shallowly embedded: each Rust function becomes a Lean
function of the same name and structure.  Rust `Result<T>` (anyhow) becomes
`Except String T`; a Rust panic (from `panic!`, `.unwrap()` on a `Result`,
`.unwrap()` on an `Option`, or `unimplemented!`) is modelled as the error
side of `Except Panic T`; the generator, which can surface both kinds of
failure, uses `Except GenError T` with the two cases kept apart.
The numeric payload of an `F32` literal is carried as the string the Rust
`Display` implementation would print for it (`write!(f, "{}", value)`), so
that rendering stays executable without machine floats; no property proved
here depends on float arithmetic.
-/

set_option autoImplicit false

/-- A single-quote character, written via its code point so that rendered
error messages can reproduce the Rust format strings exactly. -/
def singleQuote : String := String.singleton (Char.ofNat 39)

/-- Wraps a string in single quotes, as the Rust format strings
`"left side of '{}'"` etc. do. -/
def quoted (s : String) : String := singleQuote ++ s ++ singleQuote

/-- A Rust panic, carrying the panic message. -/
structure Panic where
  message : String
  deriving DecidableEq, Repr

/-- The message produced by calling `.unwrap()` on an `Err` value in Rust:
the panic text embeds the error message `m`. -/
def resultUnwrapMsg (m : String) : String :=
  "called `Result::unwrap()` on an `Err` value: " ++ m

/-- Propagates a Rust `Result` through `.unwrap()`: an `Err` becomes a panic. -/
def unwrapResult {α : Type} : Except String α → Except Panic α
  | .ok a => .ok a
  | .error m => .error ⟨resultUnwrapMsg m⟩

/-- Propagates a Rust `Option` through `.unwrap()`: `None` becomes a panic. -/
def unwrapOption {α : Type} : Option α → Except Panic α
  | some a => .ok a
  | none => .error ⟨"called `Option::unwrap()` on a `None` value"⟩

/-- A failure escaping the code generator: either a recoverable `anyhow`
data error carried in a `Result`, or an unrecoverable Rust panic. -/
inductive GenError where
  | dataErr (msg : String)
  | rustPanic (msg : String)
  deriving DecidableEq, Repr

/-- Lifts a recoverable `Result` error into the generator's error type. -/
def liftData {α : Type} : Except String α → Except GenError α
  | .ok a => .ok a
  | .error m => .error (.dataErr m)

/-- Lifts a panic into the generator's error type. -/
def liftPanic {α : Type} : Except Panic α → Except GenError α
  | .ok a => .ok a
  | .error p => .error (.rustPanic p.message)

/-- `ShaderType` from src/gfx/shader_gen/shader_type.rs: the closed
enumeration of shader value types. -/
inductive ShaderType where
  | i32
  | f32
  | vec2
  | vec3
  | vec4
  | mat4
  | sampler2D
  deriving DecidableEq, Repr

namespace ShaderType

/-- `ShaderType::location_count`: number of binding locations occupied. -/
def locationCount : ShaderType → Nat
  | .i32 | .f32 | .vec2 | .vec3 | .vec4 | .sampler2D => 1
  | .mat4 => 4

/-- `ShaderType::glsl_name`. -/
def glslName : ShaderType → String
  | .i32 => "int"
  | .f32 => "float"
  | .vec2 => "vec2"
  | .vec3 => "vec3"
  | .vec4 => "vec4"
  | .mat4 => "mat4"
  | .sampler2D => "sampler2D"

/-- `ShaderType::rust_name`. -/
def rustName : ShaderType → String
  | .i32 => "i32"
  | .f32 => "f32"
  | .vec2 => "Vector2<f32>"
  | .vec3 => "Vector3<f32>"
  | .vec4 => "Vector4<f32>"
  | .mat4 => "Matrix4x4<f32>"
  | .sampler2D => "TextureView"

/-- The text the Rust `Debug` derive prints for a `ShaderType` value
(used inside panic and error messages built with `{:?}`). -/
def debugName : ShaderType → String
  | .i32 => "I32"
  | .f32 => "F32"
  | .vec2 => "Vec2"
  | .vec3 => "Vec3"
  | .vec4 => "Vec4"
  | .mat4 => "Mat4"
  | .sampler2D => "Sampler2D"

/-- `ShaderType::component_count`. -/
def componentCount : ShaderType → Option Nat
  | .i32 | .f32 => some 1
  | .vec2 => some 2
  | .vec3 => some 3
  | .vec4 => some 4
  | .mat4 => some 16
  | .sampler2D => none

/-- `ShaderType::component_type`. -/
def componentType : ShaderType → Option ShaderType
  | .i32 => some .i32
  | .f32 => some .f32
  | .vec2 | .vec3 | .vec4 | .mat4 => some .f32
  | .sampler2D => none

/-- `ShaderType::ensure_vector_or_scalar`: returns the component type, or a
decorated error. -/
def ensureVectorOrScalar (t : ShaderType) (originObject : String) :
    Except String ShaderType :=
  match t.componentType with
  | some c => .ok c
  | none => .error (originObject ++ " is not a vector or scalar type")

/-- `ShaderType::ensure_vector_f32`: succeeds only when the type is a float
vector (component count above one, float components). -/
def ensureVectorF32 (t : ShaderType) (originObject : String) :
    Except String ShaderType :=
  match t.componentCount with
  | some count =>
    if 1 < count ∧ t.componentType = some ShaderType.f32 then .ok t
    else .error (originObject ++ " is not a Vector type of " ++ rustName .f32)
  | none => .error (originObject ++ " is not a Vector type of " ++ rustName .f32)

/-- `ShaderType::ensure_matches`: the two types must be equal. -/
def ensureMatches (t other : ShaderType) (originPair : String) :
    Except String Unit :=
  if t = other then .ok ()
  else .error (originPair ++ " do not match: " ++ t.rustName ++ " and " ++ other.rustName)

/-- `ShaderType::ensure_type`: the type must be the expected one. -/
def ensureType (t expected : ShaderType) (originObject : String) :
    Except String Unit :=
  if t = expected then .ok ()
  else
    .error (originObject ++ " was type " ++ t.rustName ++ " but expected type "
      ++ expected.rustName)

/-- `ShaderType::ensure_math_compatible`: the typing rule for the binary
math operations.  Both sides must be vectors or scalars, their component
types must match, and the component counts must be equal or one side must
be a scalar (count one). -/
def ensureMathCompatible (t other : ShaderType) (originOperation : String) :
    Except String Unit :=
  let leftName := "left side of " ++ quoted originOperation
  let rightName := "right side of " ++ quoted originOperation
  let pairName := "left and right sides of " ++ quoted originOperation
  match t.ensureVectorOrScalar leftName with
  | .error m => .error m
  | .ok tComponent =>
    match other.ensureVectorOrScalar rightName with
    | .error m => .error m
    | .ok otherComponent =>
      match tComponent.ensureMatches otherComponent pairName with
      | .error m => .error m
      | .ok _ =>
        let tCount := t.componentCount.getD 1
        let otherCount := other.componentCount.getD 1
        if tCount = 1 ∨ otherCount = 1 then .ok ()
        else if tCount = otherCount then .ok ()
        else
          .error ("Left and right sides of " ++ quoted originOperation
            ++ " have invalid types: " ++ t.rustName ++ " and " ++ other.rustName)

end ShaderType

/-- The prefix for shader input variables
(`SHADER_INPUT_PREFIX` in src/gfx/shader_gen/shader_inputs.rs). -/
def shaderInputPfx : String := "input_"

/-- The prefix for shader uniform variables
(`SHADER_UNIFORM_PREFIX` in src/gfx/shader_gen/shader_parameters.rs). -/
def shaderUniformPfx : String := "_uniform_"

/-- The prefix for shader output variables
(`SHADER_OUTPUT_PREFIX` in src/gfx/shader_gen/shader_outputs.rs). -/
def shaderOutputPfx : String := "_output_"

/-- The expression tree from src/gfx/shader_gen/shader_expression.rs.
The Rust `ShaderExpression` is a `Box<RefCell<ShaderOperation>>` wrapper
around the operation; the cell is only ever read after construction, so the
wrapper and the operation collapse into one inductive here.  An `F32`
literal carries the string its `Display` implementation prints. -/
inductive ShaderExpression where
  | input (name : String) (valueType : ShaderType)
  | uniform (name : String) (valueType : ShaderType)
  | i32 (value : Int)
  | f32 (shown : String)
  | vec2 (x y : ShaderExpression)
  | vec3 (x y z : ShaderExpression)
  | vec4 (x y z w : ShaderExpression)
  | append (left right : ShaderExpression)
  | add (left right : ShaderExpression)
  | sub (left right : ShaderExpression)
  | mul (left right : ShaderExpression)
  | div (left right : ShaderExpression)
  | pow (left right : ShaderExpression)
  | rem (left right : ShaderExpression)
  | neg (e : ShaderExpression)
  | abs (e : ShaderExpression)
  | sign (e : ShaderExpression)
  | floor (e : ShaderExpression)
  | ceil (e : ShaderExpression)
  | round (e : ShaderExpression)
  | min (left right : ShaderExpression)
  | max (left right : ShaderExpression)
  | clamp (e lo hi : ShaderExpression)
  | mix (left right factor : ShaderExpression)
  | dot (left right : ShaderExpression)
  | cross (left right : ShaderExpression)
  | length (e : ShaderExpression)
  | normalized (e : ShaderExpression)
  | sample (texture uv level : ShaderExpression)
  deriving DecidableEq, Repr

namespace ShaderExpression

/-- `ShaderExpression::shader_type`: the type of an expression, computed
structurally from its children. -/
def shaderType : ShaderExpression → Except String ShaderType
  | .input _ valueType => .ok valueType
  | .uniform _ valueType => .ok valueType
  | .i32 _ => .ok .i32
  | .f32 _ => .ok .f32
  | .vec2 _ _ => .ok .vec2
  | .vec3 _ _ _ => .ok .vec3
  | .vec4 _ _ _ _ => .ok .vec4
  | .append left right =>
    match left.shaderType with
    | .error m => .error m
    | .ok .i32 | .ok .f32 =>
      match right.shaderType with
      | .error m => .error m
      | .ok .i32 | .ok .f32 => .ok .vec2
      | .ok .vec2 => .ok .vec3
      | .ok .vec3 => .ok .vec4
      | .ok bad =>
        .error ("Right side of append operation has wrong type: " ++ bad.debugName)
    | .ok .vec2 =>
      match right.shaderType with
      | .error m => .error m
      | .ok .i32 | .ok .f32 => .ok .vec3
      | .ok .vec2 => .ok .vec4
      | .ok bad =>
        .error ("Right side of append operation has wrong type: " ++ bad.debugName)
    | .ok .vec3 =>
      match right.shaderType with
      | .error m => .error m
      | .ok .i32 | .ok .f32 => .ok .vec4
      | .ok bad =>
        .error ("Right side of append operation has wrong type: " ++ bad.debugName)
    | .ok bad =>
      .error ("Left side of append operation has wrong type: " ++ bad.debugName)
  | .add left _ => left.shaderType
  | .sub left _ => left.shaderType
  | .mul left right =>
    match left.shaderType with
    | .error m => .error m
    | .ok .mat4 =>
      match right.shaderType with
      | .error m => .error m
      | .ok .vec4 => .ok .vec4
      | .ok .mat4 => .ok .mat4
      | .ok bad =>
        .error ("Right side of mul operation has wrong type: " ++ bad.debugName)
    | .ok leftType => .ok leftType
  | .div left _ => left.shaderType
  | .pow left _ => left.shaderType
  | .rem left _ => left.shaderType
  | .neg e => e.shaderType
  | .abs e => e.shaderType
  | .sign e => e.shaderType
  | .floor e => e.shaderType
  | .ceil e => e.shaderType
  | .round e => e.shaderType
  | .min left _ => left.shaderType
  | .max left _ => left.shaderType
  | .clamp e _ _ => e.shaderType
  | .mix left _ _ => left.shaderType
  | .dot _ _ => .ok .f32
  | .cross _ _ => .ok .vec3
  | .length _ => .ok .f32
  | .normalized e => e.shaderType
  | .sample _ _ _ => .ok .vec4

/-- The `Display` implementation for `ShaderExpression`: renders the
expression to GLSL source text.  The `Append` arm calls
`shader_type().unwrap()` and hits `unimplemented!()` for non-vector types,
and the `Sample` arm hits `unimplemented!()` when the texture is not a
uniform reference; both are panics. -/
def render : ShaderExpression → Except Panic String
  | .input name _ => .ok (shaderInputPfx ++ name)
  | .uniform name _ => .ok (shaderUniformPfx ++ name)
  | .i32 value => .ok (toString value)
  | .f32 shown => .ok shown
  | .vec2 x y => do
    .ok ("vec2(" ++ (← x.render) ++ ", " ++ (← y.render) ++ ")")
  | .vec3 x y z => do
    .ok ("vec3(" ++ (← x.render) ++ ", " ++ (← y.render) ++ ", " ++ (← z.render) ++ ")")
  | .vec4 x y z w => do
    .ok ("vec4(" ++ (← x.render) ++ ", " ++ (← y.render) ++ ", " ++ (← z.render)
      ++ ", " ++ (← w.render) ++ ")")
  | .append left right => do
    let t ← unwrapResult (ShaderExpression.append left right).shaderType
    match t with
    | .vec2 => .ok ("vec2(" ++ (← left.render) ++ ", " ++ (← right.render) ++ ")")
    | .vec3 => .ok ("vec3(" ++ (← left.render) ++ ", " ++ (← right.render) ++ ")")
    | .vec4 => .ok ("vec4(" ++ (← left.render) ++ ", " ++ (← right.render) ++ ")")
    | _ => .error ⟨"not implemented"⟩
  | .add left right => do
    .ok ("(" ++ (← left.render) ++ " + " ++ (← right.render) ++ ")")
  | .sub left right => do
    .ok ("(" ++ (← left.render) ++ " - " ++ (← right.render) ++ ")")
  | .mul left right => do
    .ok ("(" ++ (← left.render) ++ " * " ++ (← right.render) ++ ")")
  | .div left right => do
    .ok ("(" ++ (← left.render) ++ " / " ++ (← right.render) ++ ")")
  | .pow left right => do
    .ok ("pow(" ++ (← left.render) ++ ", " ++ (← right.render) ++ ")")
  | .rem left right => do
    .ok ("mod(" ++ (← left.render) ++ ", " ++ (← right.render) ++ ")")
  | .neg e => do .ok ("(-" ++ (← e.render) ++ ")")
  | .abs e => do .ok ("abs(" ++ (← e.render) ++ ")")
  | .sign e => do .ok ("sign(" ++ (← e.render) ++ ")")
  | .floor e => do .ok ("floor(" ++ (← e.render) ++ ")")
  | .ceil e => do .ok ("ceil(" ++ (← e.render) ++ ")")
  | .round e => do .ok ("round(" ++ (← e.render) ++ ")")
  | .min left right => do
    .ok ("min(" ++ (← left.render) ++ ", " ++ (← right.render) ++ ")")
  | .max left right => do
    .ok ("max(" ++ (← left.render) ++ ", " ++ (← right.render) ++ ")")
  | .clamp e lo hi => do
    .ok ("clamp(" ++ (← e.render) ++ ", " ++ (← lo.render) ++ ", " ++ (← hi.render) ++ ")")
  | .mix left right factor => do
    .ok ("mix(" ++ (← left.render) ++ ", " ++ (← right.render) ++ ", "
      ++ (← factor.render) ++ ")")
  | .dot left right => do
    .ok ("dot(" ++ (← left.render) ++ ", " ++ (← right.render) ++ ")")
  | .cross left right => do
    .ok ("cross(" ++ (← left.render) ++ ", " ++ (← right.render) ++ ")")
  | .length e => do .ok ("length(" ++ (← e.render) ++ ")")
  | .normalized e => do .ok ("normalize(" ++ (← e.render) ++ ")")
  | .sample texture uv lod =>
    match texture with
    | .uniform name _ => do
      let u := shaderUniformPfx ++ name
      .ok ("textureLod(" ++ u ++ ", " ++ u ++ "_min.xy + (" ++ u ++ "_max.xy - "
        ++ u ++ "_min.xy) * " ++ (← uv.render) ++ ", int(" ++ u ++ "_min.z + ("
        ++ u ++ "_max.z - " ++ u ++ "_min.z) * " ++ (← lod.render) ++ "))")
    | _ => .error ⟨"not implemented"⟩

end ShaderExpression


/-! The `ShaderMath` capability trait (src/gfx/shader_gen/shader_expression.rs,
`pub trait ShaderMath`).  Each method converts its operands to expressions,
calls `shader_type().unwrap()` on them, validates the types with
`ensure_math_compatible(..).unwrap()` and only then builds the node, so every
typing-rule violation surfaces as a panic, not as a recoverable `Result`. -/

namespace ShaderMath

open ShaderExpression ShaderType

/-- `ShaderMath::append`.  After the compatibility check it also panics
outright when the combined component count would exceed four. -/
def append (a b : ShaderExpression) : Except Panic ShaderExpression :=
  match unwrapResult a.shaderType with
  | .error p => .error p
  | .ok aType =>
    match unwrapResult b.shaderType with
    | .error p => .error p
    | .ok bType =>
      match unwrapResult (aType.ensureMathCompatible bType "append") with
      | .error p => .error p
      | .ok _ =>
        match unwrapOption aType.componentCount with
        | .error p => .error p
        | .ok aCount =>
          match unwrapOption bType.componentCount with
          | .error p => .error p
          | .ok bCount =>
            let totalComponents := aCount + bCount
            if totalComponents > 4 then
              .error ⟨"Cannot create vector with more than 4 components: "
                ++ aType.debugName ++ " + " ++ bType.debugName ++ " = "
                ++ toString totalComponents ++ " components"⟩
            else .ok (ShaderExpression.append a b)

/-- `ShaderMath::add`. -/
def add (a b : ShaderExpression) : Except Panic ShaderExpression :=
  match unwrapResult a.shaderType with
  | .error p => .error p
  | .ok aType =>
    match unwrapResult b.shaderType with
    | .error p => .error p
    | .ok bType =>
      match unwrapResult (aType.ensureMathCompatible bType "add") with
      | .error p => .error p
      | .ok _ => .ok (ShaderExpression.add a b)

/-- `ShaderMath::sub`. -/
def sub (a b : ShaderExpression) : Except Panic ShaderExpression :=
  match unwrapResult a.shaderType with
  | .error p => .error p
  | .ok aType =>
    match unwrapResult b.shaderType with
    | .error p => .error p
    | .ok bType =>
      match unwrapResult (aType.ensureMathCompatible bType "sub") with
      | .error p => .error p
      | .ok _ => .ok (ShaderExpression.sub a b)

/-- `ShaderMath::mul`. -/
def mul (a b : ShaderExpression) : Except Panic ShaderExpression :=
  match unwrapResult a.shaderType with
  | .error p => .error p
  | .ok aType =>
    match unwrapResult b.shaderType with
    | .error p => .error p
    | .ok bType =>
      match unwrapResult (aType.ensureMathCompatible bType "mul") with
      | .error p => .error p
      | .ok _ => .ok (ShaderExpression.mul a b)

/-- `ShaderMath::div`. -/
def div (a b : ShaderExpression) : Except Panic ShaderExpression :=
  match unwrapResult a.shaderType with
  | .error p => .error p
  | .ok aType =>
    match unwrapResult b.shaderType with
    | .error p => .error p
    | .ok bType =>
      match unwrapResult (aType.ensureMathCompatible bType "div") with
      | .error p => .error p
      | .ok _ => .ok (ShaderExpression.div a b)

end ShaderMath

/-! The `ShaderVector` capability trait (same file, `pub trait ShaderVector`):
dot and cross products, validated with `ensure_vector_f32` and
`ensure_matches`, again through `.unwrap()`. -/

namespace ShaderVector

open ShaderExpression ShaderType

/-- The decorated argument name `"argument 'self' of 'dot'"` used at the
`ensure_*` call sites inside `ShaderVector::dot`. -/
def dotSelfName : String := "argument " ++ quoted "self" ++ " of " ++ quoted "dot"

/-- The decorated pair name used inside `ShaderVector::dot`. -/
def dotPairName : String :=
  "arguments " ++ quoted "self" ++ " and " ++ quoted "other" ++ " of " ++ quoted "dot"

/-- The decorated argument name used inside `ShaderVector::cross`. -/
def crossSelfName : String := "argument " ++ quoted "self" ++ " of " ++ quoted "cross"

/-- The decorated pair name used inside `ShaderVector::cross`. -/
def crossPairName : String :=
  "arguments " ++ quoted "self" ++ " and " ++ quoted "other" ++ " of " ++ quoted "cross"

/-- `ShaderVector::dot`. -/
def dot (a b : ShaderExpression) : Except Panic ShaderExpression :=
  match unwrapResult a.shaderType with
  | .error p => .error p
  | .ok aType =>
    match unwrapResult b.shaderType with
    | .error p => .error p
    | .ok bType =>
      match unwrapResult (aType.ensureVectorF32 dotSelfName) with
      | .error p => .error p
      | .ok _ =>
        match unwrapResult (aType.ensureMatches bType dotPairName) with
        | .error p => .error p
        | .ok _ => .ok (ShaderExpression.dot a b)

/-- `ShaderVector::cross`. -/
def cross (a b : ShaderExpression) : Except Panic ShaderExpression :=
  match unwrapResult a.shaderType with
  | .error p => .error p
  | .ok aType =>
    match unwrapResult b.shaderType with
    | .error p => .error p
    | .ok bType =>
      match unwrapResult (aType.ensureVectorF32 crossSelfName) with
      | .error p => .error p
      | .ok _ =>
        match unwrapResult (aType.ensureMatches bType crossPairName) with
        | .error p => .error p
        | .ok _ => .ok (ShaderExpression.cross a b)

end ShaderVector

/-- `ShaderStage` from src/gfx/shader.rs. -/
inductive ShaderStage where
  | vertex
  | fragment
  deriving DecidableEq, Repr

/-- `ShaderInput` from src/gfx/shader_gen/shader_inputs.rs. -/
structure ShaderInput where
  name : String
  valueType : ShaderType
  location : Nat
  deriving DecidableEq, Repr

namespace ShaderInput

/-- `ShaderInput::to_expression`. -/
def toExpression (i : ShaderInput) : ShaderExpression :=
  ShaderExpression.input i.name i.valueType

end ShaderInput

/-- `ShaderInputs` from src/gfx/shader_gen/shader_inputs.rs. -/
structure ShaderInputs where
  inputs : List ShaderInput
  deriving DecidableEq, Repr

namespace ShaderInputs

/-- The duplicate scan inside `ShaderInputs::with_inputs`: walking the list
with the set of names already seen, it reports the first repeated name. -/
def firstDuplicate : List ShaderInput → List String → Option String
  | [], _ => none
  | i :: rest, seen =>
    if seen.contains i.name then some i.name
    else firstDuplicate rest (i.name :: seen)

/-- `ShaderInputs::with_inputs`: rejects duplicate names, then empty input
sets. -/
def withInputs (inputs : List ShaderInput) : Except String ShaderInputs :=
  match firstDuplicate inputs [] with
  | some name => .error ("Duplicate input: " ++ name)
  | none =>
    if inputs.isEmpty then .error "No inputs provided"
    else .ok ⟨inputs⟩

/-- `ShaderInputs::input`: find an input by name. -/
def input (s : ShaderInputs) (name : String) : Option ShaderInput :=
  s.inputs.find? (fun i => i.name == name)

/-- `ShaderInputs::get`: look up an input by name as an expression. -/
def get (s : ShaderInputs) (name : String) : Except String ShaderExpression :=
  match s.input name with
  | some i => .ok i.toExpression
  | none => .error ("Input not found: " ++ name)

end ShaderInputs

/-- `ShaderOutput` from src/gfx/shader_gen/shader_outputs.rs. -/
structure ShaderOutput where
  name : String
  valueType : ShaderType
  location : Nat
  expression : Option ShaderExpression
  deriving DecidableEq, Repr

/-- `ShaderOutputs` from src/gfx/shader_gen/shader_outputs.rs. -/
structure ShaderOutputs where
  outputs : List ShaderOutput
  stage : ShaderStage
  vertexPosition : Option ShaderExpression
  fragmentColor : Option ShaderExpression
  deriving DecidableEq, Repr

namespace ShaderOutputs

/-- `ShaderOutputs::new`. -/
def new (stage : ShaderStage) : ShaderOutputs :=
  ⟨[], stage, none, none⟩

/-- The in-place update performed through `output_mut` inside
`ShaderOutputs::set`: replace the expression of the first output with the
given name. -/
def updateExpression : List ShaderOutput → String → ShaderExpression → List ShaderOutput
  | [], _, _ => []
  | o :: rest, name, e =>
    if o.name = name then { o with expression := some e } :: rest
    else o :: updateExpression rest name e

/-- `ShaderOutputs::set`: update the named output, or create it with
location equal to the number of outputs already created (offset by one in
the fragment stage, whose location zero is reserved for the color
built-in), then set its expression. -/
def set (os : ShaderOutputs) (name : String) (e : ShaderExpression) :
    Except String ShaderOutputs :=
  if os.outputs.any (fun o => o.name = name) then
    .ok { os with outputs := updateExpression os.outputs name e }
  else
    let location := os.outputs.length + (if os.stage = .fragment then 1 else 0)
    match e.shaderType with
    | .error m => .error m
    | .ok valueType =>
      let pushed := os.outputs ++ [⟨name, valueType, location, none⟩]
      .ok { os with outputs := updateExpression pushed name e }

/-- `ShaderOutputs::set_vertex_position`: panics outside the vertex stage
or when the expression is not a `Vec4`. -/
def setVertexPosition (os : ShaderOutputs) (e : ShaderExpression) :
    Except Panic ShaderOutputs :=
  if os.stage ≠ .vertex then
    .error ⟨"Cannot set vertex position in a non-vertex shader"⟩
  else
    match unwrapResult e.shaderType with
    | .error p => .error p
    | .ok shaderType =>
      if shaderType ≠ .vec4 then
        .error ⟨"Vertex position type must be " ++ ShaderType.rustName .vec4
          ++ ", found " ++ shaderType.rustName⟩
      else .ok { os with vertexPosition := some e }

/-- `ShaderOutputs::set_fragment_color`: panics outside the fragment stage
or when the expression is not a `Vec4`. -/
def setFragmentColor (os : ShaderOutputs) (e : ShaderExpression) :
    Except Panic ShaderOutputs :=
  if os.stage ≠ .fragment then
    .error ⟨"Cannot set fragment color in a non-fragment shader"⟩
  else
    match unwrapResult e.shaderType with
    | .error p => .error p
    | .ok shaderType =>
      if shaderType ≠ .vec4 then
        .error ⟨"Fragment color type must be " ++ ShaderType.rustName .vec4
          ++ ", found " ++ shaderType.rustName⟩
      else .ok { os with fragmentColor := some e }

end ShaderOutputs

/-- `ShaderParameter` from src/gfx/shader_gen/shader_parameters.rs. -/
structure ShaderParameter where
  name : String
  valueType : ShaderType
  deriving DecidableEq, Repr

namespace ShaderParameter

/-- `ShaderParameter::to_expression`. -/
def toExpression (p : ShaderParameter) : ShaderExpression :=
  ShaderExpression.uniform p.name p.valueType

end ShaderParameter

/-- `ShaderParameters` from src/gfx/shader_gen/shader_parameters.rs. -/
structure ShaderParameters where
  parameters : List ShaderParameter
  deriving DecidableEq, Repr

namespace ShaderParameters

/-- `ShaderParameters::new`. -/
def new : ShaderParameters := ⟨[]⟩

/-- `ShaderParameters::parameter`: find a parameter by name. -/
def parameter (ps : ShaderParameters) (name : String) : Option ShaderParameter :=
  ps.parameters.find? (fun p => p.name == name)

/-- `ShaderParameters::get`: return an expression for the named parameter,
creating it when absent.  The requested type is the Rust type parameter
`T`, made explicit here.  Requesting an existing name with a different type
panics. -/
def get (ps : ShaderParameters) (name : String) (valueType : ShaderType) :
    Except Panic (ShaderParameters × ShaderExpression) :=
  match ps.parameter name with
  | some p =>
    if p.valueType ≠ valueType then
      .error ⟨"Parameter " ++ name ++ " was previously requested with type "
        ++ p.valueType.debugName ++ ", but now requested with type "
        ++ valueType.debugName⟩
    else .ok (ps, p.toExpression)
  | none =>
    let p : ShaderParameter := ⟨name, valueType⟩
    .ok (⟨ps.parameters ++ [p]⟩, p.toExpression)

end ShaderParameters

/-- `VertexInput` from src/gfx/vertex_layout.rs: the closed set of vertex
attributes a layout may contain. -/
inductive VertexInput where
  | position
  | normal
  | color
  | texCoord
  deriving DecidableEq, Repr

namespace VertexInput

/-- `VertexInput::name`. -/
def name : VertexInput → String
  | .position => "position"
  | .normal => "normal"
  | .color => "color"
  | .texCoord => "tex_coord"

/-- `VertexInput::shader_type`. -/
def shaderType : VertexInput → ShaderType
  | .position => .vec3
  | .normal => .vec3
  | .color => .vec4
  | .texCoord => .vec2

end VertexInput

/-- The shape of the two user callbacks handed to the generator
(`FnOnce(&ShaderInputs, &mut ShaderParameters, &mut ShaderOutputs) -> Result<()>`):
mutation of the parameter and output registries is modelled by returning
their new values.  A callback may fail with a data error of its own or, by
calling a panicking builder, with a panic. -/
def ShaderGenCallback : Type :=
  ShaderInputs → ShaderParameters → ShaderOutputs →
    Except GenError (ShaderParameters × ShaderOutputs)

/-- The location-assigning loop at the top of
`InputLayout::__generate_vertex_shader`: one `ShaderInput` per layout
attribute, locations advancing by each type's `location_count`. -/
def layoutShaderInputs : List VertexInput → Nat → List ShaderInput
  | [], _ => []
  | v :: rest, location =>
    ShaderInput.mk v.name v.shaderType location
      :: layoutShaderInputs rest (location + v.shaderType.locationCount)

/-- One `layout(location = N) in ...;` line of generated source. -/
def inputDeclLine (i : ShaderInput) : String :=
  "layout(location = " ++ toString i.location ++ ") in " ++ i.valueType.glslName
    ++ " " ++ shaderInputPfx ++ i.name ++ ";\n"

/-- One `uniform ...;` line as emitted by the vertex-stage loop of
`InputLayout::__generate_vertex_shader` (no synthesized sampler region
uniforms there). -/
def vertexUniformLines (p : ShaderParameter) : String :=
  "uniform " ++ p.valueType.glslName ++ " " ++ shaderUniformPfx ++ p.name ++ ";\n"

/-- The uniform lines emitted per parameter by
`InputLayout::__generate_fragment_shader`: the declaration itself plus, for
a sampler, the synthesized `_min` and `_max` `vec3` region uniforms. -/
def fragmentUniformLines (p : ShaderParameter) : String :=
  "uniform " ++ p.valueType.glslName ++ " " ++ shaderUniformPfx ++ p.name ++ ";\n"
    ++ (if p.valueType = .sampler2D then
          ("uniform vec3 " ++ shaderUniformPfx ++ p.name ++ "_min;\n")
            ++ ("uniform vec3 " ++ shaderUniformPfx ++ p.name ++ "_max;\n")
        else "")

/-- One `layout(location = N) out ...;` line of generated source. -/
def outputDeclLine (o : ShaderOutput) : String :=
  "layout(location = " ++ toString o.location ++ ") out " ++ o.valueType.glslName
    ++ " " ++ shaderOutputPfx ++ o.name ++ ";\n"

/-- The per-output assignment loop at the bottom of both generator
functions: one `_output_<name> = <expr>;` line per output whose expression
is set (rendering may panic). -/
def renderOutputAssignments : List ShaderOutput → Except Panic String
  | [] => .ok ""
  | o :: rest =>
    match o.expression with
    | none =>
      renderOutputAssignments rest
    | some e =>
      match e.render with
      | .error p => .error p
      | .ok rendered =>
        match renderOutputAssignments rest with
        | .error p => .error p
        | .ok tail =>
          .ok (shaderOutputPfx ++ o.name ++ " = " ++ rendered ++ ";\n" ++ tail)

/-- `InputLayout::__generate_vertex_shader`: build the vertex inputs from
the layout, run the vertex callback, render the vertex source, and derive
the fragment-stage inputs one-for-one from the vertex outputs (same name,
type and location). -/
def generateVertexShader (layout : List VertexInput) (f : ShaderGenCallback) :
    Except GenError (String × ShaderInputs × ShaderParameters) :=
  match liftData (ShaderInputs.withInputs (layoutShaderInputs layout 0)) with
  | .error err => .error err
  | .ok inputs =>
    match f inputs ShaderParameters.new (ShaderOutputs.new .vertex) with
    | .error err => .error err
    | .ok (parameters, outputs) =>
      let code := "#version 450\n"
      let code := inputs.inputs.foldl (fun acc i => acc ++ inputDeclLine i) code
      let code := parameters.parameters.foldl (fun acc p => acc ++ vertexUniformLines p) code
      let code := outputs.outputs.foldl (fun acc o => acc ++ outputDeclLine o) code
      let code := code ++ "out gl_PerVertex \x7b\n" ++ "vec4 gl_Position;\n" ++ "\x7d;\n"
      let code := code ++ "void main() \x7b\n"
      match outputs.vertexPosition with
      | none => .error (.dataErr "Vertex position not set.")
      | some position =>
        match liftPanic position.render with
        | .error err => .error err
        | .ok positionText =>
          let code := code ++ "gl_Position = " ++ positionText ++ ";\n"
          match liftPanic (renderOutputAssignments outputs.outputs) with
          | .error err => .error err
          | .ok assignments =>
            let code := code ++ assignments ++ "\x7d\n"
            match ShaderInputs.withInputs
                (outputs.outputs.map fun o => ShaderInput.mk o.name o.valueType o.location) with
            | .error m =>
              .error (.dataErr ("Failed to link fragment inputs to vertex outputs: " ++ m))
            | .ok fragmentInputs => .ok (code, fragmentInputs, parameters)

/-- `InputLayout::__generate_fragment_shader`: run the fragment callback on
the derived inputs and render the fragment source, synthesizing `_min` and
`_max` region uniforms for sampler parameters and reserving output
location zero for the fragment color built-in. -/
def generateFragmentShader (inputs : ShaderInputs) (f : ShaderGenCallback) :
    Except GenError (String × ShaderParameters) :=
  match f inputs ShaderParameters.new (ShaderOutputs.new .fragment) with
  | .error err => .error err
  | .ok (parameters, outputs) =>
    let code := "#version 450\n"
    let code := inputs.inputs.foldl (fun acc i => acc ++ inputDeclLine i) code
    let code := parameters.parameters.foldl (fun acc p => acc ++ fragmentUniformLines p) code
    let code := code ++ "layout(location = 0) out vec4 out_fragment_color;\n"
    let code := outputs.outputs.foldl (fun acc o => acc ++ outputDeclLine o) code
    let code := code ++ "void main() \x7b\n"
    match outputs.fragmentColor with
    | none => .error (.dataErr "Fragment color not set.")
    | some colorExpression =>
      match liftPanic colorExpression.render with
      | .error err => .error err
      | .ok colorText =>
        let code := code ++ "out_fragment_color = " ++ colorText ++ ";\n"
        match liftPanic (renderOutputAssignments outputs.outputs) with
        | .error err => .error err
        | .ok assignments =>
          let code := code ++ assignments ++ "\x7d\n"
          .ok (code, parameters)

/-- The wrapping `map_err` applied by
`InputLayout::generate_vertex_fragment_shaders` to each stage: a data error
gets the stage prefix, while a panic unwinds unchanged. -/
def wrapStageError (stagePrefix : String) : GenError → GenError
  | .dataErr m => .dataErr (stagePrefix ++ m)
  | .rustPanic m => .rustPanic m

/-- `InputLayout::generate_vertex_fragment_shaders`: the whole pipeline.
Either both stages render completely, or the call returns a single error. -/
def generateVertexFragmentShaders (layout : List VertexInput)
    (vertex fragment : ShaderGenCallback) :
    Except GenError (String × ShaderParameters × String × ShaderParameters) :=
  match generateVertexShader layout vertex with
  | .error err => .error (wrapStageError "Failed to generate vertex shader: " err)
  | .ok (vertexSource, fragmentInputs, vertexParameters) =>
    match generateFragmentShader fragmentInputs fragment with
    | .error err => .error (wrapStageError "Failed to generate fragment shader: " err)
    | .ok (fragmentSource, fragmentParameters) =>
      .ok (vertexSource, vertexParameters, fragmentSource, fragmentParameters)

/-! Auxiliary notions used by the statements below: substring occurrence,
both as a proposition (for general proofs) and as an executable check (for
concrete generated sources), plus the concrete generation scenarios the
statements evaluate. -/

/-- `needle` occurs contiguously inside `hay`. -/
def strOccurs (needle hay : String) : Prop :=
  ∃ pre post : List Char, hay.data = pre ++ (needle.data ++ post)

/-- Executable prefix test on character lists. -/
def charsPrefix : List Char → List Char → Bool
  | [], _ => true
  | _ :: _, [] => false
  | a :: as, b :: bs => a == b && charsPrefix as bs

/-- Executable infix test on character lists. -/
def charsInfix (needle : List Char) : List Char → Bool
  | [] => charsPrefix needle []
  | b :: bs => charsPrefix needle (b :: bs) || charsInfix needle bs

/-- Executable substring test on strings. -/
def strContains (hay needle : String) : Bool :=
  charsInfix needle.data hay.data

/-- The vertex source of a full generation result (empty on failure). -/
def vertexSourceOf
    (r : Except GenError (String × ShaderParameters × String × ShaderParameters)) :
    String :=
  match r with
  | .ok (vs, _, _, _) => vs
  | .error _ => ""

/-- The fragment source of a full generation result (empty on failure). -/
def fragmentSourceOf
    (r : Except GenError (String × ShaderParameters × String × ShaderParameters)) :
    String :=
  match r with
  | .ok (_, _, fs, _) => fs
  | .error _ => ""

/-- Whether a full generation result succeeded. -/
def genOk
    (r : Except GenError (String × ShaderParameters × String × ShaderParameters)) :
    Bool :=
  match r with
  | .ok _ => true
  | .error _ => false

/-- A concrete opaque-white `Vec4` literal used by the sample callbacks. -/
def whiteVec4 : ShaderExpression :=
  .vec4 (.f32 "1") (.f32 "1") (.f32 "1") (.f32 "1")

/-- A vertex callback that sets the built-in position and creates exactly
one user output named `color`. -/
def oneOutputVertexCb : ShaderGenCallback := fun _ ps os =>
  match ShaderOutputs.setVertexPosition os whiteVec4 with
  | .error p => .error (.rustPanic p.message)
  | .ok os1 =>
    match ShaderOutputs.set os1 "color" whiteVec4 with
    | .error m => .error (.dataErr m)
    | .ok os2 => .ok (ps, os2)

/-- A fragment callback that forwards the `color` input to the fragment
color built-in. -/
def forwardColorFragmentCb : ShaderGenCallback := fun ins ps os =>
  match ShaderInputs.get ins "color" with
  | .error m => .error (.dataErr m)
  | .ok colorInput =>
    match ShaderOutputs.setFragmentColor os colorInput with
    | .error p => .error (.rustPanic p.message)
    | .ok os1 => .ok (ps, os1)

/-- The concrete generation run for the interface-derivation claims: a
single `position` attribute, one forwarded user output. -/
def oneOutputRun : Except GenError (String × ShaderParameters × String × ShaderParameters) :=
  generateVertexFragmentShaders [.position] oneOutputVertexCb forwardColorFragmentCb

/-- A vertex callback that registers a sampler uniform named `tex`, sets
the position and creates one user output. -/
def samplerVertexCb : ShaderGenCallback := fun _ ps os =>
  match ShaderParameters.get ps "tex" .sampler2D with
  | .error p => .error (.rustPanic p.message)
  | .ok (ps1, _) =>
    match ShaderOutputs.setVertexPosition os whiteVec4 with
    | .error p => .error (.rustPanic p.message)
    | .ok os1 =>
      match ShaderOutputs.set os1 "color" whiteVec4 with
      | .error m => .error (.dataErr m)
      | .ok os2 => .ok (ps1, os2)

/-- A fragment callback that registers the same sampler uniform and sets
the fragment color. -/
def samplerFragmentCb : ShaderGenCallback := fun _ ps os =>
  match ShaderParameters.get ps "tex" .sampler2D with
  | .error p => .error (.rustPanic p.message)
  | .ok (ps1, _) =>
    match ShaderOutputs.setFragmentColor os whiteVec4 with
    | .error p => .error (.rustPanic p.message)
    | .ok os1 => .ok (ps1, os1)

/-- The concrete generation run with a sampler parameter on both stages. -/
def samplerRun : Except GenError (String × ShaderParameters × String × ShaderParameters) :=
  generateVertexFragmentShaders [.position] samplerVertexCb samplerFragmentCb

/-- A vertex callback that sets the built-in position but creates no user
output at all. -/
def noUserOutputVertexCb : ShaderGenCallback := fun _ ps os =>
  match ShaderOutputs.setVertexPosition os whiteVec4 with
  | .error p => .error (.rustPanic p.message)
  | .ok os1 => .ok (ps, os1)

/-- A callback that touches nothing. -/
def doNothingCb : ShaderGenCallback := fun _ ps os => .ok (ps, os)

/-- Counts the parameters carrying a given name in a registry. -/
def countParametersNamed (ps : ShaderParameters) (name : String) : Nat :=
  (ps.parameters.filter (fun p => p.name == name)).length

/-! Helper lemmas about substring occurrence. -/

theorem strOccurs_shape (a n s : String) : strOccurs n (a ++ n ++ s) :=
  ⟨a.data, s.data, by simp [String.data_append]⟩

theorem strOccurs_append_right {n x : String} (h : strOccurs n x) (y : String) :
    strOccurs n (x ++ y) := by
  obtain ⟨p, q, hx⟩ := h
  exact ⟨p, q ++ y.data, by simp [String.data_append, hx]⟩

theorem strOccurs_append_left {n y : String} (x : String) (h : strOccurs n y) :
    strOccurs n (x ++ y) := by
  obtain ⟨p, q, hy⟩ := h
  exact ⟨x.data ++ p, q, by simp [String.data_append, hy]⟩

/-- Every error produced by `ensure_math_compatible` mentions the quoted
operation name (it is built into the decorated side names). -/
theorem ensureMathCompatible_error_mentions (t u : ShaderType) (op msg : String)
    (h : ShaderType.ensureMathCompatible t u op = .error msg) :
    strOccurs (quoted op) msg := by
  unfold ShaderType.ensureMathCompatible at h
  cases ht : t.componentType with
  | none =>
    simp only [ShaderType.ensureVectorOrScalar, ht] at h
    cases h
    exact strOccurs_shape "left side of " (quoted op) " is not a vector or scalar type"
  | some tc =>
    cases hu : u.componentType with
    | none =>
      simp only [ShaderType.ensureVectorOrScalar, ht, hu] at h
      cases h
      exact strOccurs_shape "right side of " (quoted op) " is not a vector or scalar type"
    | some uc =>
      simp only [ShaderType.ensureVectorOrScalar, ht, hu, ShaderType.ensureMatches] at h
      by_cases hm : tc = uc
      · simp only [hm, if_pos rfl] at h
        by_cases h1 : t.componentCount.getD 1 = 1 ∨ u.componentCount.getD 1 = 1
        · simp [h1] at h
        · simp only [h1, if_neg] at h
          by_cases h2 : t.componentCount.getD 1 = u.componentCount.getD 1
          · simp [h2] at h
          · simp only [h2, if_neg, not_false_iff] at h
            cases h
            exact strOccurs_append_right (strOccurs_append_right
              (strOccurs_append_right (strOccurs_shape "Left and right sides of "
                (quoted op) " have invalid types: ") _) _) _
      · simp only [if_neg hm] at h
        cases h
        exact strOccurs_append_right (strOccurs_append_right (strOccurs_append_right
          (strOccurs_shape "left and right sides of " (quoted op) " do not match: ") _) _) _

/-- C1 (amended): every typing-rule violation in the binary operator
builders is detected eagerly with a descriptive message that names the
operation (and the offending side), but the builders call `.unwrap()` on
the checking `Result`, so the violation surfaces as a panic carrying that
message — not as a recoverable `Result` of the operation itself. -/
theorem c1_operator_type_errors_panic :
    (∀ (t u : ShaderType) (op msg : String),
      ShaderType.ensureMathCompatible t u op = .error msg →
        strOccurs (quoted op) msg)
    ∧ (∀ (a b : ShaderExpression) (ta tb : ShaderType) (msg : String),
      a.shaderType = .ok ta → b.shaderType = .ok tb →
      ShaderType.ensureMathCompatible ta tb "add" = .error msg →
        ShaderMath.add a b = .error ⟨resultUnwrapMsg msg⟩)
    ∧ (∀ (a b : ShaderExpression) (ta tb : ShaderType) (msg : String),
      a.shaderType = .ok ta → b.shaderType = .ok tb →
      ShaderType.ensureMathCompatible ta tb "sub" = .error msg →
        ShaderMath.sub a b = .error ⟨resultUnwrapMsg msg⟩)
    ∧ (∀ (a b : ShaderExpression) (ta tb : ShaderType) (msg : String),
      a.shaderType = .ok ta → b.shaderType = .ok tb →
      ShaderType.ensureMathCompatible ta tb "mul" = .error msg →
        ShaderMath.mul a b = .error ⟨resultUnwrapMsg msg⟩)
    ∧ (∀ (a b : ShaderExpression) (ta tb : ShaderType) (msg : String),
      a.shaderType = .ok ta → b.shaderType = .ok tb →
      ShaderType.ensureMathCompatible ta tb "div" = .error msg →
        ShaderMath.div a b = .error ⟨resultUnwrapMsg msg⟩)
    ∧ (∀ (a b : ShaderExpression) (ta tb : ShaderType) (msg : String),
      a.shaderType = .ok ta → b.shaderType = .ok tb →
      ShaderType.ensureMathCompatible ta tb "append" = .error msg →
        ShaderMath.append a b = .error ⟨resultUnwrapMsg msg⟩)
    ∧ (∀ (a b : ShaderExpression) (ta tb : ShaderType) (msg : String),
      a.shaderType = .ok ta → b.shaderType = .ok tb →
      ShaderType.ensureVectorF32 ta ShaderVector.dotSelfName = .error msg →
        ShaderVector.dot a b = .error ⟨resultUnwrapMsg msg⟩) := by
  refine ⟨ensureMathCompatible_error_mentions, ?_, ?_, ?_, ?_, ?_, ?_⟩
  · intro a b ta tb msg ha hb hc
    simp [ShaderMath.add, ha, hb, hc, unwrapResult]
  · intro a b ta tb msg ha hb hc
    simp [ShaderMath.sub, ha, hb, hc, unwrapResult]
  · intro a b ta tb msg ha hb hc
    simp [ShaderMath.mul, ha, hb, hc, unwrapResult]
  · intro a b ta tb msg ha hb hc
    simp [ShaderMath.div, ha, hb, hc, unwrapResult]
  · intro a b ta tb msg ha hb hc
    simp [ShaderMath.append, ha, hb, hc, unwrapResult]
  · intro a b ta tb msg ha hb hf
    simp [ShaderVector.dot, ha, hb, hf, unwrapResult]

/-- C1 witness: a concrete incompatible `add` (a sampler on the left)
panics with the descriptive message. -/
theorem c1_operator_type_errors_panic_witness :
    ShaderMath.add (.uniform "tex" .sampler2D) (.f32 "1")
      = .error ⟨resultUnwrapMsg ("left side of " ++ quoted "add"
          ++ " is not a vector or scalar type")⟩ :=
  c1_operator_type_errors_panic.2.1 (.uniform "tex" .sampler2D) (.f32 "1")
    .sampler2D .f32 _ rfl rfl rfl

/-- C1 counterexample: the claim says incompatible operands yield a
recoverable type-error `Result`; on the code, a `div` of a `Vec2` by a
`Vec3` instead panics (the builder unwraps the failed check). -/
theorem c1_div_incompatible_panics :
    ShaderMath.div (.uniform "v" .vec2) (.uniform "w" .vec3)
      = .error ⟨resultUnwrapMsg ("Left and right sides of " ++ quoted "div"
          ++ " have invalid types: Vector2<f32> and Vector3<f32>")⟩ := rfl

/-- C2: the claim (and the `Mul` arm of `ShaderExpression::shader_type`
itself) says `Mat4 * Vec4` succeeds with type `Vec4`, but
`ShaderMath::mul` validates with `ensure_math_compatible`, which counts a
`Mat4` as sixteen components and so rejects the pair — the builder panics.
`Mat4 * Mat4` does succeed (equal counts), and a scalar times `Mat4` is
accepted on the broadcast path, contradicting matrix-on-the-left-only. -/
theorem c2_mat4_mul_behavior :
    ShaderMath.mul (.uniform "m" .mat4) (.uniform "v" .vec4)
      = .error ⟨resultUnwrapMsg ("Left and right sides of " ++ quoted "mul"
          ++ " have invalid types: Matrix4x4<f32> and Vector4<f32>")⟩
    ∧ ShaderExpression.shaderType (.mul (.uniform "m" .mat4) (.uniform "v" .vec4))
        = .ok .vec4
    ∧ ShaderMath.mul (.uniform "m" .mat4) (.uniform "n" .mat4)
        = .ok (.mul (.uniform "m" .mat4) (.uniform "n" .mat4))
    ∧ ShaderExpression.shaderType (.mul (.uniform "m" .mat4) (.uniform "n" .mat4))
        = .ok .mat4
    ∧ ShaderMath.mul (.f32 "2") (.uniform "m" .mat4)
        = .ok (.mul (.f32 "2") (.uniform "m" .mat4)) :=
  ⟨rfl, rfl, rfl, rfl, rfl⟩

/-! Helper lemmas about the input and output registries. -/

theorem withInputs_ok_inputs {l : List ShaderInput} {s : ShaderInputs}
    (h : ShaderInputs.withInputs l = .ok s) : s.inputs = l := by
  unfold ShaderInputs.withInputs at h
  cases hd : ShaderInputs.firstDuplicate l [] with
  | some name => simp [hd] at h
  | none =>
    rw [hd] at h
    by_cases he : l.isEmpty
    · simp [he] at h
    · simp [he] at h
      cases h
      rfl

theorem updateExpression_append_fresh (l : List ShaderOutput) (name : String)
    (t : ShaderType) (loc : Nat) (e : ShaderExpression)
    (h : ∀ o ∈ l, o.name ≠ name) :
    ShaderOutputs.updateExpression (l ++ [⟨name, t, loc, none⟩]) name e
      = l ++ [⟨name, t, loc, some e⟩] := by
  induction l with
  | nil => simp [ShaderOutputs.updateExpression]
  | cons o rest ih =>
    have ho : o.name ≠ name := h o (List.mem_cons_self o rest)
    have ih2 := ih (fun x hx => h x (List.mem_cons_of_mem o hx))
    simp [ShaderOutputs.updateExpression, if_neg ho, ih2]

set_option maxRecDepth 10000

/-- C3 counterexample: with one user output, the generated fragment shader
declares its single `in` at location 0, not at location 1 as the claim
states (location 0 is only reserved among fragment outputs, not inputs). -/
theorem c3_single_output_fragment_in_at_zero :
    genOk oneOutputRun = true
    ∧ strContains (fragmentSourceOf oneOutputRun) "layout(location = 1) in" = false
    ∧ strContains (fragmentSourceOf oneOutputRun)
        "layout(location = 0) in vec4 input_color;\n" = true :=
  ⟨rfl, rfl, rfl⟩

/-- C3 (amended): the fragment stage's inputs are derived one-to-one from
the vertex stage's user outputs with the same name and type, each keeping
its output's location; vertex-stage outputs are numbered sequentially from
0 in creation order (no offset), so a single user output yields a fragment
`in` at location 0. -/
theorem c3_fragment_inputs_mirror_vertex_outputs
    (layout : List VertexInput) (vcb : ShaderGenCallback)
    (ins : ShaderInputs) (ps0 : ShaderParameters) (os : ShaderOutputs)
    (h1 : ShaderInputs.withInputs (layoutShaderInputs layout 0) = .ok ins)
    (h2 : vcb ins ShaderParameters.new (ShaderOutputs.new .vertex) = .ok (ps0, os)) :
    (∀ (code : String) (fins : ShaderInputs) (psOut : ShaderParameters),
        generateVertexShader layout vcb = .ok (code, fins, psOut) →
        fins.inputs = os.outputs.map (fun o => ShaderInput.mk o.name o.valueType o.location))
    ∧ (∀ (osv : ShaderOutputs) (name : String) (e : ShaderExpression)
          (os1 : ShaderOutputs),
        osv.stage = .vertex →
        (∀ o ∈ osv.outputs, o.name ≠ name) →
        ShaderOutputs.set osv name e = .ok os1 →
        ∃ t, e.shaderType = .ok t ∧
          os1.outputs = osv.outputs ++ [⟨name, t, osv.outputs.length, some e⟩]) := by
  constructor
  · intro code fins psOut hgen
    unfold generateVertexShader at hgen
    rw [h1] at hgen
    simp only [liftData] at hgen
    simp only [h2] at hgen
    rcases hvp : os.vertexPosition with _ | pos
    · simp only [hvp] at hgen
      exact Except.noConfusion hgen
    · simp only [hvp] at hgen
      rcases hr : pos.render with p | posText
      · simp only [hr, liftPanic] at hgen
        exact Except.noConfusion hgen
      · simp only [hr, liftPanic] at hgen
        rcases hra : renderOutputAssignments os.outputs with p | assigns
        · simp only [hra, liftPanic] at hgen
          exact Except.noConfusion hgen
        · simp only [hra, liftPanic] at hgen
          rcases hfi : ShaderInputs.withInputs
              (os.outputs.map fun o => ShaderInput.mk o.name o.valueType o.location)
            with m | fins2
          · simp only [hfi] at hgen
            exact Except.noConfusion hgen
          · simp only [hfi, Except.ok.injEq, Prod.mk.injEq] at hgen
            obtain ⟨-, hfins, -⟩ := hgen
            rw [← hfins]
            exact withInputs_ok_inputs hfi
  · intro osv name e os1 hstage hfresh hset
    unfold ShaderOutputs.set at hset
    have hany : (osv.outputs.any (fun o => o.name = name)) = false := by
      simp only [List.any_eq_false, decide_eq_true_eq]
      exact hfresh
    rw [if_neg (by simp [hany])] at hset
    rcases ht : e.shaderType with m | t
    · simp only [ht] at hset
      exact Except.noConfusion hset
    · simp only [ht, Except.ok.injEq] at hset
      refine ⟨t, rfl, ?_⟩
      rw [← hset, hstage]
      simp only [reduceIte]
      have := updateExpression_append_fresh osv.outputs name t (osv.outputs.length + 0) e hfresh
      simpa using this

/-- C3 witness: the single forwarded `color` output of the concrete run
becomes the single fragment input, at location 0, with matching name and
type. -/
theorem c3_fragment_inputs_mirror_vertex_outputs_witness :
    (ShaderInputs.mk [ShaderInput.mk "color" ShaderType.vec4 0]).inputs
      = ([ShaderOutput.mk "color" ShaderType.vec4 0 (some whiteVec4)].map
          (fun o => ShaderInput.mk o.name o.valueType o.location)) :=
  (c3_fragment_inputs_mirror_vertex_outputs [VertexInput.position] oneOutputVertexCb
      (ShaderInputs.mk [ShaderInput.mk "position" ShaderType.vec3 0])
      ShaderParameters.new
      (ShaderOutputs.mk [ShaderOutput.mk "color" ShaderType.vec4 0 (some whiteVec4)]
        .vertex (some whiteVec4) none)
      rfl rfl).1 _
    (ShaderInputs.mk [ShaderInput.mk "color" ShaderType.vec4 0])
    ShaderParameters.new rfl

theorem strOccurs_self (n : String) : strOccurs n n := ⟨[], [], by simp⟩

theorem strOccurs_foldl_init (f : ShaderParameter → String) (needle : String)
    (l : List ShaderParameter) (init : String) (h : strOccurs needle init) :
    strOccurs needle (l.foldl (fun acc q => acc ++ f q) init) := by
  induction l generalizing init with
  | nil => exact h
  | cons q rest ih => exact ih (init ++ f q) (strOccurs_append_right h (f q))

theorem strOccurs_foldl_of_mem (f : ShaderParameter → String) (needle : String)
    (ps : List ShaderParameter) (p : ShaderParameter) (hmem : p ∈ ps)
    (h : strOccurs needle (f p)) (init : String) :
    strOccurs needle (ps.foldl (fun acc q => acc ++ f q) init) := by
  induction ps generalizing init with
  | nil => cases hmem
  | cons q rest ih =>
    rcases List.mem_cons.mp hmem with hq | hrest
    · subst hq
      exact strOccurs_foldl_init f needle rest (init ++ f p)
        (strOccurs_append_left init h)
    · exact ih hrest (init ++ f q)

/-- C4 counterexample: a sampler parameter registered in the vertex stage
produces only its own uniform declaration there — the vertex source of the
concrete run contains no `_min`/`_max` text at all, refuting the claim for
the vertex stage. -/
theorem c4_vertex_stage_has_no_region_uniforms :
    genOk samplerRun = true
    ∧ strContains (vertexSourceOf samplerRun) "uniform sampler2D _uniform_tex;\n" = true
    ∧ strContains (vertexSourceOf samplerRun) "_min" = false
    ∧ strContains (vertexSourceOf samplerRun) "_max" = false :=
  ⟨rfl, rfl, rfl, rfl⟩

/-- C4 (amended): only the fragment stage synthesizes region uniforms:
in the fragment-stage uniform block every sampler parameter produces
`<name>_min` and `<name>_max` `vec3` uniform declarations besides its own,
while the vertex stage renders just the plain declaration. -/
theorem c4_sampler_region_uniforms_fragment_only :
    (∀ (ps : List ShaderParameter) (p : ShaderParameter) (init : String),
        p ∈ ps → p.valueType = .sampler2D →
        strOccurs ("uniform vec3 " ++ shaderUniformPfx ++ p.name ++ "_min;\n")
          (ps.foldl (fun acc q => acc ++ fragmentUniformLines q) init)
        ∧ strOccurs ("uniform vec3 " ++ shaderUniformPfx ++ p.name ++ "_max;\n")
          (ps.foldl (fun acc q => acc ++ fragmentUniformLines q) init))
    ∧ strContains (fragmentSourceOf samplerRun) "uniform vec3 _uniform_tex_min;\n" = true
    ∧ strContains (fragmentSourceOf samplerRun) "uniform vec3 _uniform_tex_max;\n" = true := by
  refine ⟨?_, rfl, rfl⟩
  intro ps p init hmem hs
  constructor
  · refine strOccurs_foldl_of_mem _ _ ps p hmem ?_ init
    unfold fragmentUniformLines
    rw [if_pos hs]
    exact strOccurs_append_left _ (strOccurs_append_right (strOccurs_self _) _)
  · refine strOccurs_foldl_of_mem _ _ ps p hmem ?_ init
    unfold fragmentUniformLines
    rw [if_pos hs]
    exact strOccurs_append_left _ (strOccurs_append_left _ (strOccurs_self _))

/-- C4 witness: the sampler parameter `tex` makes the fragment uniform
block contain both synthesized region declarations. -/
theorem c4_sampler_region_uniforms_fragment_only_witness :
    strOccurs ("uniform vec3 " ++ shaderUniformPfx ++ "tex" ++ "_min;\n")
      ([ShaderParameter.mk "tex" ShaderType.sampler2D].foldl
        (fun acc q => acc ++ fragmentUniformLines q) "")
    ∧ strOccurs ("uniform vec3 " ++ shaderUniformPfx ++ "tex" ++ "_max;\n")
      ([ShaderParameter.mk "tex" ShaderType.sampler2D].foldl
        (fun acc q => acc ++ fragmentUniformLines q) "") :=
  c4_sampler_region_uniforms_fragment_only.1
    [ShaderParameter.mk "tex" ShaderType.sampler2D]
    (ShaderParameter.mk "tex" ShaderType.sampler2D) ""
    (List.mem_singleton.mpr rfl) rfl

/-- C5 counterexample: `cross` is not restricted to 3-component vectors —
a `Vec2` cross `Vec2` is accepted (and typed `Vec3`) — and `dot` on a
sampler receiver panics through `.unwrap()` instead of returning a
recoverable error. -/
theorem c5_cross_accepts_vec2_and_dot_on_sampler_panics :
    ShaderVector.cross (.uniform "a" .vec2) (.uniform "b" .vec2)
      = .ok (.cross (.uniform "a" .vec2) (.uniform "b" .vec2))
    ∧ ShaderExpression.shaderType
        (.cross (.uniform "a" .vec2) (.uniform "b" .vec2)) = .ok .vec3
    ∧ ShaderVector.dot (.uniform "s" .sampler2D) (.uniform "b" .vec2)
      = .error ⟨resultUnwrapMsg (ShaderVector.dotSelfName
          ++ " is not a Vector type of " ++ ShaderType.rustName .f32)⟩ :=
  ⟨rfl, rfl, rfl⟩

/-- C5 (amended): `dot` of two `Vec3` expressions yields type `F32` and
`cross` yields type `Vec3`; but `cross` accepts any pair of equal-typed
operands passing `ensure_vector_f32` (`Vec2`, `Vec3`, `Vec4` and even
`Mat4`), always typed `Vec3`; and `dot` on a sampler receiver panics
rather than returning a recoverable error. -/
theorem c5_dot_cross_typing (a b : ShaderExpression)
    (ha : a.shaderType = .ok .vec3) (hb : b.shaderType = .ok .vec3) :
    (ShaderVector.dot a b = .ok (.dot a b)
      ∧ ShaderExpression.shaderType (.dot a b) = .ok .f32)
    ∧ (ShaderVector.cross a b = .ok (.cross a b)
      ∧ ShaderExpression.shaderType (.cross a b) = .ok .vec3)
    ∧ (∀ (c d : ShaderExpression) (t : ShaderType),
        t ∈ [ShaderType.vec2, .vec3, .vec4, .mat4] →
        c.shaderType = .ok t → d.shaderType = .ok t →
        ShaderVector.cross c d = .ok (.cross c d)
          ∧ ShaderExpression.shaderType (.cross c d) = .ok .vec3)
    ∧ (∀ (s u : ShaderExpression) (tu : ShaderType),
        s.shaderType = .ok .sampler2D → u.shaderType = .ok tu →
        ShaderVector.dot s u
          = .error ⟨resultUnwrapMsg (ShaderVector.dotSelfName
              ++ " is not a Vector type of " ++ ShaderType.rustName .f32)⟩) := by
  refine ⟨⟨?_, rfl⟩, ⟨?_, rfl⟩, ?_, ?_⟩
  · simp [ShaderVector.dot, ha, hb, unwrapResult, ShaderType.ensureVectorF32,
      ShaderType.ensureMatches, ShaderType.componentCount, ShaderType.componentType]
  · simp [ShaderVector.cross, ha, hb, unwrapResult, ShaderType.ensureVectorF32,
      ShaderType.ensureMatches, ShaderType.componentCount, ShaderType.componentType]
  · intro c d t hmem hc hd
    refine ⟨?_, rfl⟩
    fin_cases hmem <;>
      simp [ShaderVector.cross, hc, hd, unwrapResult, ShaderType.ensureVectorF32,
        ShaderType.ensureMatches, ShaderType.componentCount, ShaderType.componentType]
  · intro s u tu hs hu
    simp [ShaderVector.dot, hs, hu, unwrapResult, ShaderType.ensureVectorF32,
      ShaderType.componentCount, resultUnwrapMsg]

/-- C5 witness: concrete `Vec3` inputs exercise the dot/cross typing, and
a concrete sampler receiver exercises the panic. -/
theorem c5_dot_cross_typing_witness :
    ShaderVector.dot (.input "n" .vec3) (.input "l" .vec3)
      = .ok (.dot (.input "n" .vec3) (.input "l" .vec3))
    ∧ ShaderVector.cross (.input "n" .vec3) (.input "l" .vec3)
      = .ok (.cross (.input "n" .vec3) (.input "l" .vec3))
    ∧ ShaderVector.dot (.uniform "t" .sampler2D) (.input "l" .vec3)
      = .error ⟨resultUnwrapMsg (ShaderVector.dotSelfName
          ++ " is not a Vector type of " ++ ShaderType.rustName .f32)⟩ :=
  ⟨(c5_dot_cross_typing (.input "n" .vec3) (.input "l" .vec3) rfl rfl).1.1,
   (c5_dot_cross_typing (.input "n" .vec3) (.input "l" .vec3) rfl rfl).2.1.1,
   (c5_dot_cross_typing (.input "n" .vec3) (.input "l" .vec3) rfl rfl).2.2.2
     (.uniform "t" .sampler2D) (.input "l" .vec3) .vec3 rfl rfl⟩

/-- C6 counterexample: `I32.append(F32)` has combined component count
2 ≤ 4, yet the operation fails (the component kinds differ), refuting
"succeeds if and only if the counts sum to at most 4". -/
theorem c6_append_i32_f32_fails_despite_fitting :
    (ShaderType.componentCount .i32).getD 1 + (ShaderType.componentCount .f32).getD 1 ≤ 4
    ∧ ShaderMath.append (.i32 1) (.f32 "1")
      = .error ⟨resultUnwrapMsg ("left and right sides of " ++ quoted "append"
          ++ " do not match: i32 and f32")⟩ :=
  ⟨by decide, rfl⟩

/-- C6 (amended): `a.append(b)` succeeds iff the operands additionally
pass the math-compatibility check (vector/scalar operands of the same
component kind, counts equal or one side scalar) and the component counts
sum to at most 4; on success the resulting type's component count is
exactly that sum. -/
theorem c6_append_characterization (a b : ShaderExpression) (ta tb : ShaderType)
    (ha : a.shaderType = .ok ta) (hb : b.shaderType = .ok tb) :
    ((∃ e, ShaderMath.append a b = .ok e) ↔
      (ShaderType.ensureMathCompatible ta tb "append" = .ok ()
        ∧ ta.componentCount.getD 1 + tb.componentCount.getD 1 ≤ 4))
    ∧ (∀ e, ShaderMath.append a b = .ok e →
        e = ShaderExpression.append a b
        ∧ ∃ tc, e.shaderType = .ok tc
            ∧ tc.componentCount = some (ta.componentCount.getD 1 + tb.componentCount.getD 1)) := by
  cases ta <;> cases tb <;>
    simp_all [ShaderMath.append, unwrapResult, unwrapOption,
      ShaderType.ensureMathCompatible, ShaderType.ensureVectorOrScalar,
      ShaderType.ensureMatches, ShaderType.componentCount,
      ShaderType.componentType, ShaderExpression.shaderType, quoted]

/-- C6 witness: a `Vec2` appended with an `F32` (compatible, 3 ≤ 4
components) succeeds. -/
theorem c6_append_characterization_witness :
    ∃ e, ShaderMath.append (.input "uv" .vec2) (.f32 "1") = .ok e :=
  (c6_append_characterization (.input "uv" .vec2) (.f32 "1") .vec2 .f32
    rfl rfl).1.mpr ⟨rfl, by decide⟩

/-- C7 (confirmed): for scalar or vector operands of the same underlying
scalar kind, `a.add(b)` type-checks iff the component counts are equal or
at least one side is a scalar (count 1); violating pairs are rejected
(with a panic carrying the descriptive message). -/
theorem c7_add_broadcast_rule (a b : ShaderExpression) (ta tb : ShaderType)
    (ha : a.shaderType = .ok ta) (hb : b.shaderType = .ok tb)
    (hta : ta ∈ [ShaderType.i32, .f32, .vec2, .vec3, .vec4])
    (htb : tb ∈ [ShaderType.i32, .f32, .vec2, .vec3, .vec4])
    (hkind : ta.componentType = tb.componentType) :
    ((∃ e, ShaderMath.add a b = .ok e) ↔
      (ta.componentCount.getD 1 = tb.componentCount.getD 1
        ∨ ta.componentCount.getD 1 = 1 ∨ tb.componentCount.getD 1 = 1))
    ∧ (¬ (ta.componentCount.getD 1 = tb.componentCount.getD 1
        ∨ ta.componentCount.getD 1 = 1 ∨ tb.componentCount.getD 1 = 1) →
        ∃ p, ShaderMath.add a b = .error p) := by
  fin_cases hta <;> fin_cases htb <;>
    simp_all [ShaderMath.add, unwrapResult,
      ShaderType.ensureMathCompatible, ShaderType.ensureVectorOrScalar,
      ShaderType.ensureMatches, ShaderType.componentCount,
      ShaderType.componentType, quoted]

/-- C7 witness: an `F32` broadcast onto a `Vec3` type-checks (counts 1 and
3, one side scalar), while a `Vec2` plus `Vec3` is rejected. -/
theorem c7_add_broadcast_rule_witness :
    (∃ e, ShaderMath.add (.f32 "2") (.input "p" .vec3) = .ok e)
    ∧ (∃ p, ShaderMath.add (.input "uv" .vec2) (.input "p" .vec3) = .error p) :=
  ⟨(c7_add_broadcast_rule (.f32 "2") (.input "p" .vec3) .f32 .vec3
      rfl rfl (by decide) (by decide) rfl).1.mpr (by decide),
   (c7_add_broadcast_rule (.input "uv" .vec2) (.input "p" .vec3) .vec2 .vec3
      rfl rfl (by decide) (by decide) rfl).2 (by decide)⟩

/-- C8 (confirmed): a vertex callback that never sets the vertex position
makes the whole generation fail with the recoverable data error
"Vertex position not set." (wrapped with the stage prefix); a fragment
callback that never sets the fragment color fails analogously; in both
cases `generate` returns a single error and no partial output. -/
theorem c8_missing_builtins_fail_generation :
    (∀ (layout : List VertexInput) (vcb fcb : ShaderGenCallback)
        (ins : ShaderInputs) (ps : ShaderParameters) (os : ShaderOutputs),
      ShaderInputs.withInputs (layoutShaderInputs layout 0) = .ok ins →
      vcb ins ShaderParameters.new (ShaderOutputs.new .vertex) = .ok (ps, os) →
      os.vertexPosition = none →
      generateVertexFragmentShaders layout vcb fcb
        = .error (.dataErr ("Failed to generate vertex shader: "
            ++ "Vertex position not set.")))
    ∧ (∀ (layout : List VertexInput) (vcb fcb : ShaderGenCallback)
        (vs : String) (fins : ShaderInputs) (vps ps : ShaderParameters)
        (os : ShaderOutputs),
      generateVertexShader layout vcb = .ok (vs, fins, vps) →
      fcb fins ShaderParameters.new (ShaderOutputs.new .fragment) = .ok (ps, os) →
      os.fragmentColor = none →
      generateVertexFragmentShaders layout vcb fcb
        = .error (.dataErr ("Failed to generate fragment shader: "
            ++ "Fragment color not set."))) := by
  constructor
  · intro layout vcb fcb ins ps os h1 h2 h3
    unfold generateVertexFragmentShaders generateVertexShader
    rw [h1]
    simp only [liftData]
    simp only [h2, h3, wrapStageError]
  · intro layout vcb fcb vs fins vps ps os hv hf h3
    unfold generateVertexFragmentShaders
    simp only [hv]
    unfold generateFragmentShader
    simp only [hf, h3, wrapStageError]

/-- C8 witness: concrete callbacks omitting each built-in produce the
respective stage errors. -/
theorem c8_missing_builtins_fail_generation_witness :
    generateVertexFragmentShaders [.position] doNothingCb forwardColorFragmentCb
      = .error (.dataErr ("Failed to generate vertex shader: "
          ++ "Vertex position not set."))
    ∧ generateVertexFragmentShaders [.position] oneOutputVertexCb doNothingCb
      = .error (.dataErr ("Failed to generate fragment shader: "
          ++ "Fragment color not set.")) :=
  ⟨c8_missing_builtins_fail_generation.1 [.position] doNothingCb
      forwardColorFragmentCb
      (ShaderInputs.mk [ShaderInput.mk "position" ShaderType.vec3 0])
      ShaderParameters.new (ShaderOutputs.new .vertex) rfl rfl rfl,
   c8_missing_builtins_fail_generation.2 [.position] oneOutputVertexCb
      doNothingCb _
      (ShaderInputs.mk [ShaderInput.mk "color" ShaderType.vec4 0])
      ShaderParameters.new ShaderParameters.new (ShaderOutputs.new .fragment)
      rfl rfl rfl⟩

/-! Helper lemmas for the parameter registry. -/

theorem find?_append_of_none {α : Type} (f : α → Bool) (l1 l2 : List α)
    (h : l1.find? f = none) : (l1 ++ l2).find? f = l2.find? f := by
  induction l1 with
  | nil => rfl
  | cons a l1 ih =>
    rw [List.cons_append]
    cases hfa : f a with
    | true => simp [List.find?_cons, hfa] at h
    | false =>
      simp only [List.find?_cons, hfa, cond_false] at h ⊢
      exact ih h

theorem filter_name_length_one (ps : List ShaderParameter) (name : String)
    (hnodup : (ps.map (fun p => p.name)).Nodup)
    (p : ShaderParameter) (hmem : p ∈ ps) (hname : p.name = name) :
    (ps.filter (fun q => q.name == name)).length = 1 := by
  induction ps with
  | nil => cases hmem
  | cons q rest ih =>
    rw [List.map_cons, List.nodup_cons] at hnodup
    rcases List.mem_cons.mp hmem with hq | hrest
    · subst hq
      have hrestnil : rest.filter (fun r => r.name == name) = [] := by
        rw [List.filter_eq_nil_iff]
        intro x hx
        simp only [beq_iff_eq]
        intro hxname
        have hpx : p.name ∈ List.map (fun r => r.name) rest := by
          rw [hname, ← hxname]
          exact List.mem_map_of_mem (fun r => r.name) hx
        exact hnodup.1 hpx
      simp [List.filter_cons, hname, hrestnil]
    · have hqname : q.name ≠ name := by
        intro hq
        exact hnodup.1 (by
          rw [hq, ← hname]
          exact List.mem_map_of_mem (fun r => r.name) hrest)
      have hqf : (q.name == name) = false := by simp [hqname]
      simp only [List.filter_cons, hqf, cond_false]
      exact ih hnodup.2 hrest

theorem parameters_get_found {ps : ShaderParameters} {name : String}
    {p : ShaderParameter} {t : ShaderType}
    (hf : ShaderParameters.parameter ps name = some p) (hp : p.valueType = t) :
    ShaderParameters.get ps name t = .ok (ps, p.toExpression) := by
  unfold ShaderParameters.get
  rw [hf]
  dsimp only
  rw [if_neg (by simp [hp])]

theorem parameters_get_mismatch {ps : ShaderParameters} {name : String}
    {p : ShaderParameter} {t2 : ShaderType}
    (hf : ShaderParameters.parameter ps name = some p) (hp : p.valueType ≠ t2) :
    ShaderParameters.get ps name t2
      = .error ⟨"Parameter " ++ name ++ " was previously requested with type "
          ++ p.valueType.debugName ++ ", but now requested with type "
          ++ t2.debugName⟩ := by
  unfold ShaderParameters.get
  rw [hf]
  dsimp only
  rw [if_pos hp]

theorem parameters_get_absent {ps : ShaderParameters} {name : String}
    {t : ShaderType} (hf : ShaderParameters.parameter ps name = none) :
    ShaderParameters.get ps name t
      = .ok (⟨ps.parameters ++ [⟨name, t⟩]⟩,
          (ShaderParameter.mk name t).toExpression) := by
  unfold ShaderParameters.get
  rw [hf]

/-- C9 (confirmed): parameter lookup is idempotent by name: two `get`
calls with the same name and type return the same reference expression
(hence identical rendered text) and leave exactly one parameter of that
name in the registry, while a `get` with the same name but a different
type panics (a programmer error, not a recoverable `Result`). -/
theorem c9_parameter_get_idempotent (ps : ShaderParameters) (name : String)
    (t t2 : ShaderType)
    (hnodup : (ps.parameters.map (fun p => p.name)).Nodup)
    (hcompat : ∀ p ∈ ps.parameters, p.name = name → p.valueType = t)
    (hne : t2 ≠ t) :
    ∃ ps1 e1 ps2 e2,
      ShaderParameters.get ps name t = .ok (ps1, e1)
      ∧ ShaderParameters.get ps1 name t = .ok (ps2, e2)
      ∧ ps2 = ps1
      ∧ e1 = e2
      ∧ e1.render = e2.render
      ∧ countParametersNamed ps1 name = 1
      ∧ (∃ m, ShaderParameters.get ps1 name t2 = .error ⟨m⟩) := by
  rcases hf : ShaderParameters.parameter ps name with _ | p
  · have hnone := List.find?_eq_none.mp hf
    have hfind1 : ShaderParameters.parameter ⟨ps.parameters ++ [⟨name, t⟩]⟩ name
        = some ⟨name, t⟩ := by
      unfold ShaderParameters.parameter at hf ⊢
      rw [find?_append_of_none _ _ _ hf]
      simp [List.find?]
    refine ⟨⟨ps.parameters ++ [⟨name, t⟩]⟩, (ShaderParameter.mk name t).toExpression,
      ⟨ps.parameters ++ [⟨name, t⟩]⟩, (ShaderParameter.mk name t).toExpression,
      parameters_get_absent hf, parameters_get_found hfind1 rfl, rfl, rfl, rfl, ?_, ?_⟩
    · have hfilter : ps.parameters.filter (fun q => q.name == name) = [] := by
        rw [List.filter_eq_nil_iff]
        intro x hx
        exact hnone x hx
      unfold countParametersNamed
      simp only [List.filter_append, hfilter, List.nil_append, List.filter_cons]
      simp
    · exact ⟨_, parameters_get_mismatch hfind1 (fun h => hne h.symm)⟩
  · have hmem := List.mem_of_find?_eq_some hf
    have hpname : p.name = name := by
      have := List.find?_some hf
      simpa using this
    have hpt : p.valueType = t := hcompat p hmem hpname
    refine ⟨ps, p.toExpression, ps, p.toExpression,
      parameters_get_found hf hpt, parameters_get_found hf hpt, rfl, rfl, rfl, ?_, ?_⟩
    · unfold countParametersNamed
      exact filter_name_length_one ps.parameters name hnodup p hmem hpname
    · refine ⟨_, parameters_get_mismatch hf ?_⟩
      rw [hpt]
      exact fun h => hne h.symm

/-- C9 witness: requesting `color_scale : Vec3` twice on a fresh registry,
then requesting it as `F32`. -/
theorem c9_parameter_get_idempotent_witness :
    ∃ ps1 e1 ps2 e2,
      ShaderParameters.get ShaderParameters.new "color_scale" .vec3 = .ok (ps1, e1)
      ∧ ShaderParameters.get ps1 "color_scale" .vec3 = .ok (ps2, e2)
      ∧ ps2 = ps1
      ∧ e1 = e2
      ∧ e1.render = e2.render
      ∧ countParametersNamed ps1 "color_scale" = 1
      ∧ (∃ m, ShaderParameters.get ps1 "color_scale" .f32 = .error ⟨m⟩) :=
  c9_parameter_get_idempotent ShaderParameters.new "color_scale" .vec3 .f32
    (by simp [ShaderParameters.new])
    (by intro p hp; simp [ShaderParameters.new] at hp)
    (by decide)

/-- C10 (confirmed): if the vertex callback sets the position but creates
no user-named output, the derived fragment input set is empty, which
`with_inputs` rejects, so the whole generation fails with the linking data
error — a vertex shader exposing only the built-in position can never
produce a shader pair. -/
theorem c10_no_user_outputs_fails_linking
    (layout : List VertexInput) (vcb fcb : ShaderGenCallback)
    (ins : ShaderInputs) (ps : ShaderParameters) (os : ShaderOutputs)
    (pos : ShaderExpression) (posText : String)
    (h1 : ShaderInputs.withInputs (layoutShaderInputs layout 0) = .ok ins)
    (h2 : vcb ins ShaderParameters.new (ShaderOutputs.new .vertex) = .ok (ps, os))
    (h3 : os.outputs = [])
    (h4 : os.vertexPosition = some pos)
    (h5 : pos.render = .ok posText) :
    generateVertexFragmentShaders layout vcb fcb
      = .error (.dataErr ("Failed to generate vertex shader: "
          ++ ("Failed to link fragment inputs to vertex outputs: "
            ++ "No inputs provided"))) := by
  unfold generateVertexFragmentShaders generateVertexShader
  rw [h1]
  simp only [liftData]
  simp [h2, h3, h4, h5, liftPanic, renderOutputAssignments,
    ShaderInputs.withInputs, ShaderInputs.firstDuplicate, wrapStageError]

/-- C10 witness: the concrete run whose vertex callback only sets the
position fails with the linking error. -/
theorem c10_no_user_outputs_fails_linking_witness :
    generateVertexFragmentShaders [.position] noUserOutputVertexCb
        forwardColorFragmentCb
      = .error (.dataErr ("Failed to generate vertex shader: "
          ++ ("Failed to link fragment inputs to vertex outputs: "
            ++ "No inputs provided"))) :=
  c10_no_user_outputs_fails_linking [.position] noUserOutputVertexCb
    forwardColorFragmentCb
    (ShaderInputs.mk [ShaderInput.mk "position" ShaderType.vec3 0])
    ShaderParameters.new
    (ShaderOutputs.mk [] .vertex (some whiteVec4) none)
    whiteVec4 "vec4(1, 1, 1, 1)" rfl rfl rfl rfl rfl
